import Mathlib

set_option maxRecDepth 65536

/-!
Verification of the wedding_budget_updater repository.

The repository holds three Deno edge handlers:
  * `sheet-updater/index.ts` — write handler with a hardcoded append range;
  * `get-sheet-columns/index.ts`, first document — read handler returning
    the header row (with a Supabase bearer-token verification step);
  * `get-sheet-columns/index.ts`, second document — dynamic write handler
    that maps the incoming record onto the live header row.

The embedding below models JavaScript values (string / number / undefined)
with their truthiness, the column-mapping switch, the JWT assertion
builder (btoa-based base64), and each handler as a function from its
environment, parsed request and the parsed responses of the external
services to the list of outbound calls it makes plus its HTTP response.
Notes on fidelity: `toLowerCase` is modelled on the ASCII range (all
headers in the dispatch table are ASCII); numbers are integers (the
claims use only integer amounts, and NaN never arises); fetch bodies are
given already parsed, as the deployed services return JSON.
-/

/-- A JavaScript value as it can appear in a mapped row cell: a string,
a number, or `undefined` (a destructured field that was absent). -/
inductive JSValue
  | str (s : String)
  | num (n : Int)
  | undef
  deriving DecidableEq, Repr

/-- JavaScript truthiness restricted to the values above:
`undefined`, `0` and `""` are falsy, everything else truthy. -/
def JSValue.truthy : JSValue → Bool
  | .undef => false
  | .num n => n != 0
  | .str s => s != ""

/-- JavaScript `v || d` on cell values: `d` when `v` is falsy, else `v`. -/
def jsOr (v d : JSValue) : JSValue :=
  if v.truthy then v else d

/-- JavaScript `o || d` where `o` models a string field that may be
absent (`none`) or empty (falsy): used for `data.error?.message || d`. -/
def jsStrOr (o : Option String) (d : String) : String :=
  match o with
  | none => d
  | some s => if s == "" then d else s

/-- `header.toLowerCase()` on the ASCII range (every header in the
dispatch table is ASCII). -/
def jsToLowerCase (s : String) : String :=
  String.mk (s.data.map Char.toLower)

/-- JavaScript `s.startsWith(p)`. -/
def jsStartsWith (s p : String) : Bool :=
  p.data.isPrefixOf s.data

/-- The `ExpenseData` record of the dynamic write handler
(`get-sheet-columns/index.ts`, second document).  Every field is a
`JSValue` because destructuring a missing field yields `undefined`. -/
structure ExpenseData where
  expense : JSValue
  date : JSValue
  amount : JSValue
  category : JSValue
  status : JSValue
  paidBy : JSValue
  bill : JSValue
  notes : JSValue
  weddingLocation : JSValue
  localAmount : JSValue
  deriving DecidableEq, Repr

/-- The body of the `switch(header.toLowerCase())` dispatch of the
dynamic write handler (`get-sheet-columns/index.ts` lines 267-281),
taking the already-lower-cased header. -/
def mapHeaderLower (r : ExpenseData) (lh : String) : JSValue :=
  if lh = "expense" then r.expense
  else if lh = "date" then r.date
  else if lh = "amount" then r.amount
  else if lh = "category" then r.category
  else if lh = "status" then r.status
  else if lh = "paid by" then r.paidBy
  else if lh = "bill" then jsOr r.bill (JSValue.str "")
  else if lh = "notes" then jsOr r.notes (JSValue.str "")
  else if lh = "wedding location" then jsOr r.weddingLocation (JSValue.str "")
  else if lh = "local amount" then jsOr r.localAmount (JSValue.str "")
  else JSValue.str ""

/-- One arm of `headers.map(header => switch(header.toLowerCase()) ...)`. -/
def mapHeader (r : ExpenseData) (header : String) : JSValue :=
  mapHeaderLower r (jsToLowerCase header)

/-- The Column Mapper: `headers.map(header => ...)` of the dynamic write
handler. -/
def mapRow (headers : List String) (r : ExpenseData) : List JSValue :=
  headers.map (mapHeader r)

/-- The lower-cased header names the dispatch table recognizes. -/
def knownHeaderNames : List String :=
  ["expense", "date", "amount", "category", "status", "paid by",
   "bill", "notes", "wedding location", "local amount"]

/-- `String.fromCharCode(64 + headers.length)` of the dynamic write
handler (line 286). -/
def lastColumn (n : Nat) : String :=
  String.mk [Char.ofNat (64 + n)]

/-- The computed append range of the dynamic write handler (line 287). -/
def dynamicAppendRange (n : Nat) : String :=
  "Expenses!A:" ++ lastColumn n

/-- Modelled from the spec: "the Nth column letter", the `n`-th letter
of the alphabet (`A` = 1), used to compare the code's range computation
with the spec's words. -/
def specColumnLetter (n : Nat) : String :=
  String.mk ["ABCDEFGHIJKLMNOPQRSTUVWXYZ".toList.getD (n - 1) '?']

/-! ### base64 / the JWT assertion builder (`createJWT`) -/

/-- The standard base64 alphabet used by `btoa`. -/
def base64Alphabet : String :=
  "ABCDEFGHIJKLMNOPQRSTUVWXYZabcdefghijklmnopqrstuvwxyz0123456789+/"

/-- The `i`-th character of the standard base64 alphabet. -/
def b64Char (i : Nat) : Char :=
  base64Alphabet.toList.getD i '?'

/-- Standard base64 of a byte list, with `=` padding — the encoding
`btoa` performs. -/
def base64Encode : List Nat → String
  | a :: b :: c :: rest =>
      String.mk [b64Char (a / 4), b64Char (a % 4 * 16 + b / 16),
                 b64Char (b % 16 * 4 + c / 64), b64Char (c % 64)]
        ++ base64Encode rest
  | [a, b] =>
      String.mk [b64Char (a / 4), b64Char (a % 4 * 16 + b / 16),
                 b64Char (b % 16 * 4), '=']
  | [a] =>
      String.mk [b64Char (a / 4), b64Char (a % 4 * 16), '=', '=']
  | [] => ""

/-- `btoa` on a string of char codes below 256 (all strings fed to it by
`createJWT` are ASCII JSON). -/
def btoaStr (s : String) : String :=
  base64Encode (s.toList.map Char.toNat)

/-- `JSON.stringify(header)` in `createJWT`: key order is insertion
order. -/
def jwtHeaderJson : String :=
  "\x7b\"alg\":\"RS256\",\"typ\":\"JWT\"\x7d"

/-- `JSON.stringify(claim)` in `createJWT`, for a given issuer, scope
and current epoch second (`exp = now + 3600`, `iat = now`). -/
def jwtClaimJson (iss scope : String) (now : Nat) : String :=
  "\x7b\"iss\":\"" ++ iss ++ "\",\"scope\":\"" ++ scope
    ++ "\",\"aud\":\"https://oauth2.googleapis.com/token\",\"exp\":"
    ++ toString (now + 3600) ++ ",\"iat\":" ++ toString now ++ "\x7d"

/-- The `header.claim` message `createJWT` signs. -/
def createJWTMessage (iss scope : String) (now : Nat) : String :=
  btoaStr jwtHeaderJson ++ "." ++ btoaStr (jwtClaimJson iss scope now)

/-- The full assertion `createJWT` returns, abstracting the RSA
signature as its byte list: `message.btoa(signatureBytes)`. -/
def createJWT (iss scope : String) (now : Nat) (signature : List Nat) : String :=
  createJWTMessage iss scope now ++ "." ++ base64Encode signature

/-! ### Handler pipelines -/

/-- The three secrets as `Deno.env.get` returns them. -/
structure Env where
  clientEmail : Option String
  privateKey : Option String
  spreadsheetId : Option String
  deriving DecidableEq, Repr

/-- `!Deno.env.get(name)`: absent or empty is falsy. -/
def isFalsyEnv : Option String → Bool
  | none => true
  | some s => s == ""

/-- `!clientEmail || !privateKey || !spreadsheetId`. -/
def envMissing (e : Env) : Bool :=
  isFalsyEnv e.clientEmail || isFalsyEnv e.privateKey || isFalsyEnv e.spreadsheetId

/-- The `Missing environment variables: ...` message the write handlers
throw, with the `filter(Boolean).join(", ")` list of missing names. -/
def missingVarsMessage (e : Env) : String :=
  "Missing environment variables: " ++ String.intercalate ", "
    ((if isFalsyEnv e.clientEmail then ["GOOGLE_SERVICE_ACCOUNT_EMAIL"] else []) ++
     (if isFalsyEnv e.privateKey then ["GOOGLE_PRIVATE_KEY"] else []) ++
     (if isFalsyEnv e.spreadsheetId then ["SPREADSHEET_ID"] else []))

/-- Parsed JSON body of the token-endpoint response; `access_token` is
`none` when the field is absent (as in an error body). -/
structure TokenResp where
  ok : Bool
  access_token : Option String
  deriving DecidableEq, Repr

/-- Parsed JSON body of the header-row fetch; `values` is the optional
`values` array, `errorMessage` the optional `error.message`. -/
structure SheetResp where
  ok : Bool
  values : Option (List (List String))
  errorMessage : Option String
  deriving DecidableEq, Repr

/-- Parsed JSON body of the append response. -/
structure AppendResp where
  ok : Bool
  errorMessage : Option String
  updatedRange : Option String
  updatedRows : Option Nat
  deriving DecidableEq, Repr

/-- One outbound network call of a handler, in order. -/
inductive Call
  | supabaseAuth
  | tokenExchange
  | fetchHeaders
  | appendRows (range : String) (values : List (List JSValue))
  deriving DecidableEq, Repr

/-- The ranges of the append calls in a trace, in order. -/
def appendRanges (cs : List Call) : List String :=
  cs.filterMap fun c =>
    match c with
    | .appendRows r _ => some r
    | _ => none

/-- The HTTP response a handler ends with. -/
inductive HandlerResponse
  | columnsOk (columns : List String)
  | appendOk (updatedRange : Option String) (updatedRows : Option Nat)
  | errorResp (message : String) (code : Option String) (status : Nat)
  deriving DecidableEq, Repr

/-- A handler run: the outbound calls made, then the response. -/
structure RunResult where
  calls : List Call
  response : HandlerResponse
  deriving DecidableEq, Repr

/-- `data.values?.[0] || []`: the first row of the `values` array, or
`[]` when `values` is absent or empty. -/
def firstRowOrEmpty : Option (List (List String)) → List String
  | some (r :: _) => r
  | _ => []

/-- The catch block of the read handler (`get-sheet-columns/index.ts`,
first document): a redacted message, `AUTH_ERROR`/401 exactly when the
thrown message is `Unauthorized`, else `INTERNAL_ERROR`/400. -/
def gscCatch (msg : String) : HandlerResponse :=
  .errorResp "An error occurred while processing your request"
    (some (if msg = "Unauthorized" then "AUTH_ERROR" else "INTERNAL_ERROR"))
    (if msg = "Unauthorized" then 401 else 400)

/-- The read handler of `get-sheet-columns/index.ts` (first document):
bearer check, Supabase auth verification fetch, env check, token
exchange, header fetch (checked), column extraction. -/
def getSheetColumnsHandler (e : Env) (authHeader : Option String)
    (supabaseAuthOk : Bool) (tok : TokenResp) (sheet : SheetResp) : RunResult :=
  match authHeader with
  | none => ⟨[], gscCatch "Missing or invalid authorization header"⟩
  | some ah =>
    if jsStartsWith ah "Bearer " then
      if supabaseAuthOk then
        if envMissing e then
          ⟨[.supabaseAuth], gscCatch "Configuration error"⟩
        else if sheet.ok then
          ⟨[.supabaseAuth, .tokenExchange, .fetchHeaders],
            .columnsOk (firstRowOrEmpty sheet.values)⟩
        else
          ⟨[.supabaseAuth, .tokenExchange, .fetchHeaders],
            gscCatch "Failed to fetch sheet data"⟩
      else ⟨[.supabaseAuth], gscCatch "Unauthorized"⟩
    else ⟨[], gscCatch "Missing or invalid authorization header"⟩

/-- The dynamic write handler of `get-sheet-columns/index.ts` (second
document): env check, token exchange (status unchecked), header fetch
(status unchecked), column mapping, computed range, append (checked). -/
def dynamicWriteHandler (e : Env) (body : ExpenseData)
    (tok : TokenResp) (sheet : SheetResp) (app : AppendResp) : RunResult :=
  if envMissing e then
    ⟨[], .errorResp (missingVarsMessage e) none 400⟩
  else
    let headers := firstRowOrEmpty sheet.values
    let values := [mapRow headers body]
    let range := dynamicAppendRange headers.length
    if app.ok then
      ⟨[.tokenExchange, .fetchHeaders, .appendRows range values],
        .appendOk app.updatedRange app.updatedRows⟩
    else
      ⟨[.tokenExchange, .fetchHeaders, .appendRows range values],
        .errorResp ("Google Sheets API error: " ++ jsStrOr app.errorMessage "Unknown error")
          none 400⟩

/-- The fixed six-cell row `sheet-updater/index.ts` builds (line 62). -/
def sheetUpdaterValues (body : ExpenseData) : List (List JSValue) :=
  [[body.expense, body.date, body.amount, body.category, body.status,
    jsOr body.bill (JSValue.str "")]]

/-- The `sheet-updater/index.ts` handler: env check, token exchange
(status unchecked), append to the hardcoded `Expenses!A:F` (checked).
It performs no header fetch. -/
def sheetUpdaterHandler (e : Env) (body : ExpenseData)
    (tok : TokenResp) (app : AppendResp) : RunResult :=
  if envMissing e then
    ⟨[], .errorResp (missingVarsMessage e) none 400⟩
  else
    if app.ok then
      ⟨[.tokenExchange, .appendRows "Expenses!A:F" (sheetUpdaterValues body)],
        .appendOk app.updatedRange app.updatedRows⟩
    else
      ⟨[.tokenExchange, .appendRows "Expenses!A:F" (sheetUpdaterValues body)],
        .errorResp ("Google Sheets API error: " ++ jsStrOr app.errorMessage "Unknown error")
          none 400⟩

/-! ### Concrete fixtures used by counterexamples and witnesses -/

/-- A complete environment. -/
def envOk : Env :=
  ⟨some "svc@example.iam", some "PRIVATE-KEY-PEM", some "sheet-id-1"⟩

/-- An environment missing the service-account email. -/
def envNoEmail : Env :=
  ⟨none, some "PRIVATE-KEY-PEM", some "sheet-id-1"⟩

/-- The scenario record of the spec: bill and the other optional fields
absent. -/
def cakeRecord : ExpenseData :=
  ⟨.str "Cake", .str "2024-03-20", .num 500, .str "Food", .str "Paid",
   .str "Alex", .undef, .undef, .undef, .undef⟩

/-- A record whose fields are all absent. -/
def emptyRecord : ExpenseData :=
  ⟨.undef, .undef, .undef, .undef, .undef, .undef, .undef, .undef, .undef, .undef⟩

/-- A successful token response. -/
def tokOk : TokenResp := ⟨true, some "ya29.token"⟩

/-- A failed (HTTP 400) token response: JSON error body, no
`access_token` field. -/
def tokFail : TokenResp := ⟨false, none⟩

/-- A successful header fetch with the spec's seven columns. -/
def sheetOk7 : SheetResp :=
  ⟨true, some [["Expense", "Date", "Amount", "Category", "Status", "Paid By", "Bill"]], none⟩

/-- A failed header fetch: error body, no `values`. -/
def sheetFail : SheetResp := ⟨false, none, some "The caller does not have permission"⟩

/-- A successful append response reporting one row. -/
def appOk : AppendResp := ⟨true, none, some "Expenses!A2:F2", some 1⟩

/-- A failed append response with an upstream message. -/
def appFail : AppendResp := ⟨false, some "Invalid credentials", none, none⟩

/-! ### Claims -/

/-- C1: for every header row `H` and expense record `r`, the Column
Mapper produces a mapped row whose length equals the length of `H`:
each header position yields exactly one cell. -/
theorem C1_mapRow_length (H : List String) (r : ExpenseData) :
    (mapRow H r).length = H.length := by
  simp [mapRow]

/-- C2 counterexample: header matching is not whitespace-insensitive.
For the spec's record, the header `" Amount "` does not produce the same
cell as `"Amount"`: the switch lower-cases but never trims, so
`" amount "` falls to the default branch and yields the empty string
while `"Amount"` yields the amount 500. -/
theorem C2_counterexample :
    mapHeader cakeRecord " Amount " ≠ mapHeader cakeRecord "Amount" := by
  decide

/-- C2 (amended): header matching is case-insensitive — two headers
with the same lower-casing always produce the same cell — but not
whitespace-insensitive: a recognized name surrounded by whitespace,
such as `" Amount "`, is treated as an unknown header and maps to the
empty string for every record. -/
theorem C2_amended :
    (∀ (r : ExpenseData) (h₁ h₂ : String),
        jsToLowerCase h₁ = jsToLowerCase h₂ → mapHeader r h₁ = mapHeader r h₂) ∧
    (∀ r : ExpenseData, mapHeader r " Amount " = JSValue.str "") := by
  constructor
  · intro r h₁ h₂ h
    unfold mapHeader
    rw [h]
  · intro r
    rfl

/-- C2 witness: the amended case-insensitivity at a concrete input. -/
theorem C2_amended_witness :
    mapHeader cakeRecord "AMOUNT" = mapHeader cakeRecord "amount" :=
  C2_amended.1 cakeRecord "AMOUNT" "amount" (by decide)

/-- C3 counterexample: with a failed (HTTP 400) token exchange, the
`sheet-updater` handler does not fail with an authorization/exchange
error and the append is still attempted — the trace contains the append
call, and the eventual failure is the append step's own sheet-API error,
not an exchange error. -/
theorem C3_counterexample :
    appendRanges (sheetUpdaterHandler envOk cakeRecord tokFail appFail).calls =
      ["Expenses!A:F"] ∧
    (sheetUpdaterHandler envOk cakeRecord tokFail appFail).response =
      HandlerResponse.errorResp "Google Sheets API error: Invalid credentials" none 400 := by
  decide

/-- C3 (amended): when the token endpoint returns a non-success status
(with a JSON body), the handlers do not fail at the exchange: the absent
access token is carried forward, both write handlers still attempt the
append, and the response is identical to what it would have been had the
exchange succeeded — the request fails only if a later call fails. -/
theorem C3_amended (e : Env) (body : ExpenseData) (tok : TokenResp)
    (sheet : SheetResp) (app : AppendResp)
    (he : envMissing e = false) (ht : tok.ok = false) :
    appendRanges (sheetUpdaterHandler e body tok app).calls = ["Expenses!A:F"] ∧
    appendRanges (dynamicWriteHandler e body tok sheet app).calls =
      [dynamicAppendRange (firstRowOrEmpty sheet.values).length] ∧
    (sheetUpdaterHandler e body tok app).response =
      (sheetUpdaterHandler e body tokOk app).response ∧
    (dynamicWriteHandler e body tok sheet app).response =
      (dynamicWriteHandler e body tokOk sheet app).response := by
  cases happ : app.ok <;>
    simp [sheetUpdaterHandler, dynamicWriteHandler, he, happ, appendRanges]

/-- C3 witness: the amended claim at a concrete failed exchange. -/
theorem C3_amended_witness :
    appendRanges (sheetUpdaterHandler envOk cakeRecord tokFail appOk).calls =
      ["Expenses!A:F"] :=
  (C3_amended envOk cakeRecord tokFail sheetOk7 appOk (by decide) (by decide)).1

/-- C4: evaluation of the assertion builder at concrete inputs.  The
code encodes the header, claim and signature with `btoa` — standard
base64 with `=` padding — not unpadded base64url as the claim (and the
JWT format the code itself declares with `typ: "JWT"`) requires: the
claim segment for issuer `"a"`, scope `"s"`, time 0 ends in `=`, a
one-byte signature yields the padded segment `AA==`, and the signature
bytes 255,255,255 yield `////`, a character base64url forbids. -/
theorem C4_btoa_not_base64url :
    btoaStr jwtHeaderJson = "eyJhbGciOiJSUzI1NiIsInR5cCI6IkpXVCJ9" ∧
    btoaStr (jwtClaimJson "a" "s" 0) =
      "eyJpc3MiOiJhIiwic2NvcGUiOiJzIiwiYXVkIjoiaHR0cHM6Ly9vYXV0aDIuZ29vZ2xlYXBpcy5jb20vdG9rZW4iLCJleHAiOjM2MDAsImlhdCI6MH0=" ∧
    '=' ∈ (btoaStr (jwtClaimJson "a" "s" 0)).data ∧
    createJWT "a" "s" 0 [0] =
      createJWTMessage "a" "s" 0 ++ ".AA==" ∧
    createJWT "a" "s" 0 [255, 255, 255] =
      createJWTMessage "a" "s" 0 ++ ".////" ∧
    '/' ∈ (base64Encode [255, 255, 255]).data := by
  decide

/-- C5 counterexample: a record that supplies no value for the
`expense` field maps the `"Expense"` header to `undefined`, not to the
empty string — the required-field cases of the switch pass the
destructured value through without a default. -/
theorem C5_counterexample :
    mapHeader emptyRecord "Expense" = JSValue.undef ∧
    JSValue.undef ≠ JSValue.str "" := by
  decide

/-- C5 (amended): the mapper is total — an unrecognized header always
yields the empty string, never an error — and the four optional-field
headers (bill, notes, wedding location, local amount) yield the empty
string when their field is absent; but the required-field headers
(expense, date, amount, category, status, paid by) pass the supplied
value through unchanged, which is `undefined` when the field is absent. -/
theorem C5_amended (r : ExpenseData) (h : String) :
    (jsToLowerCase h ∉ knownHeaderNames → mapHeader r h = JSValue.str "") ∧
    (r.bill = JSValue.undef → mapHeader r "Bill" = JSValue.str "") ∧
    (r.notes = JSValue.undef → mapHeader r "Notes" = JSValue.str "") ∧
    (r.weddingLocation = JSValue.undef →
      mapHeader r "Wedding Location" = JSValue.str "") ∧
    (r.localAmount = JSValue.undef →
      mapHeader r "Local Amount" = JSValue.str "") := by
  refine ⟨?_, ?_, ?_, ?_, ?_⟩
  · intro hu
    simp [knownHeaderNames] at hu
    obtain ⟨h1, h2, h3, h4, h5, h6, h7, h8, h9, h10⟩ := hu
    simp [mapHeader, mapHeaderLower, h1, h2, h3, h4, h5, h6, h7, h8, h9, h10]
  · intro hb
    show mapHeaderLower r (jsToLowerCase "Bill") = JSValue.str ""
    rw [show jsToLowerCase "Bill" = "bill" from by decide]
    simp [mapHeaderLower, hb, jsOr, JSValue.truthy]
  · intro hn
    show mapHeaderLower r (jsToLowerCase "Notes") = JSValue.str ""
    rw [show jsToLowerCase "Notes" = "notes" from by decide]
    simp [mapHeaderLower, hn, jsOr, JSValue.truthy]
  · intro hw
    show mapHeaderLower r (jsToLowerCase "Wedding Location") = JSValue.str ""
    rw [show jsToLowerCase "Wedding Location" = "wedding location" from by decide]
    simp [mapHeaderLower, hw, jsOr, JSValue.truthy]
  · intro hl
    show mapHeaderLower r (jsToLowerCase "Local Amount") = JSValue.str ""
    rw [show jsToLowerCase "Local Amount" = "local amount" from by decide]
    simp [mapHeaderLower, hl, jsOr, JSValue.truthy]

/-- C5 witness: the amended claim at concrete inputs — an unknown
header and an absent optional field both map to the empty string. -/
theorem C5_amended_witness :
    mapHeader emptyRecord "Venue Notes Column" = JSValue.str "" ∧
    mapHeader emptyRecord "Bill" = JSValue.str "" :=
  ⟨(C5_amended emptyRecord "Venue Notes Column").1 (by decide),
   (C5_amended emptyRecord "Bill").2.1 rfl⟩

/-- C6 counterexample: the `sheet-updater` write handler appends with
the hardcoded range `Expenses!A:F`, fetches no header row at all, and
that range is not the one the claim computes from a header count
(e.g. 3 columns would give `Expenses!A:C`). -/
theorem C6_counterexample :
    appendRanges (sheetUpdaterHandler envOk cakeRecord tokOk appOk).calls =
      ["Expenses!A:F"] ∧
    Call.fetchHeaders ∉ (sheetUpdaterHandler envOk cakeRecord tokOk appOk).calls ∧
    "Expenses!A:F" ≠ dynamicAppendRange 3 := by
  decide

/-- C6 (amended): only the dynamic write handler computes its append
range from the fetched header count `n` — as column A through the
character of code `64 + n`, which is the `n`-th column letter whenever
`1 ≤ n ≤ 26` — while the `sheet-updater` write handler always uses the
hardcoded range `Expenses!A:F`. -/
theorem C6_amended :
    (∀ n : Nat, n < 27 → 1 ≤ n →
        dynamicAppendRange n = "Expenses!A:" ++ specColumnLetter n) ∧
    (∀ (e : Env) (body : ExpenseData) (tok : TokenResp)
        (sheet : SheetResp) (app : AppendResp),
        envMissing e = false →
        appendRanges (dynamicWriteHandler e body tok sheet app).calls =
          [dynamicAppendRange (firstRowOrEmpty sheet.values).length] ∧
        appendRanges (sheetUpdaterHandler e body tok app).calls =
          ["Expenses!A:F"]) := by
  constructor
  · decide
  · intro e body tok sheet app he
    cases happ : app.ok <;>
      simp [dynamicWriteHandler, sheetUpdaterHandler, he, happ, appendRanges]

/-- C6 witness: the amended range computation at a concrete count. -/
theorem C6_amended_witness :
    dynamicAppendRange 3 = "Expenses!A:" ++ specColumnLetter 3 :=
  C6_amended.1 3 (by decide) (by decide)

/-- C7 counterexample: in the read handler, with the service-account
email secret absent and a well-formed bearer header, the outbound
Supabase auth-verification call is made before the configuration
failure is reported — so the failure is not "before any outbound
network call". -/
theorem C7_counterexample :
    (getSheetColumnsHandler envNoEmail (some "Bearer t") true tokOk sheetOk7).calls =
      [Call.supabaseAuth] ∧
    (getSheetColumnsHandler envNoEmail (some "Bearer t") true tokOk sheetOk7).response =
      HandlerResponse.errorResp "An error occurred while processing your request"
        (some "INTERNAL_ERROR") 400 := by
  decide

/-- C7 (amended): in the two write handlers a missing secret fails the
request with the configuration-error message before any outbound call;
in the read handler the bearer-token verification call to the auth
service is made first, and the configuration failure is then reported —
as a redacted message with code `INTERNAL_ERROR` — after that one
outbound call. -/
theorem C7_amended (e : Env) (body : ExpenseData) (tok : TokenResp)
    (sheet : SheetResp) (app : AppendResp) (ah : String)
    (he : envMissing e = true) (hah : jsStartsWith ah "Bearer " = true) :
    (sheetUpdaterHandler e body tok app).calls = [] ∧
    (sheetUpdaterHandler e body tok app).response =
      HandlerResponse.errorResp (missingVarsMessage e) none 400 ∧
    (dynamicWriteHandler e body tok sheet app).calls = [] ∧
    (dynamicWriteHandler e body tok sheet app).response =
      HandlerResponse.errorResp (missingVarsMessage e) none 400 ∧
    (getSheetColumnsHandler e (some ah) true tok sheet).calls =
      [Call.supabaseAuth] ∧
    (getSheetColumnsHandler e (some ah) true tok sheet).response =
      HandlerResponse.errorResp "An error occurred while processing your request"
        (some "INTERNAL_ERROR") 400 := by
  simp [sheetUpdaterHandler, dynamicWriteHandler, getSheetColumnsHandler,
    he, hah, gscCatch]

/-- C7 witness: the amended claim at a concrete missing secret. -/
theorem C7_amended_witness :
    (sheetUpdaterHandler envNoEmail cakeRecord tokOk appOk).calls = [] :=
  (C7_amended envNoEmail cakeRecord tokOk sheetOk7 appOk "Bearer t"
    (by decide) (by decide)).1

/-- C8 counterexample: in the dynamic write handler, after a failed
header fetch, the append is still attempted (over an empty header row,
giving the degenerate range `Expenses!A:@`) and — the append responding
successfully — the request even succeeds, instead of failing with a
sheet-access error. -/
theorem C8_counterexample :
    appendRanges (dynamicWriteHandler envOk cakeRecord tokOk sheetFail appOk).calls =
      ["Expenses!A:@"] ∧
    (dynamicWriteHandler envOk cakeRecord tokOk sheetFail appOk).response =
      HandlerResponse.appendOk (some "Expenses!A2:F2") (some 1) := by
  decide

/-- C8 (amended): the read handler checks the header fetch and fails
the request (with its redacted message and code `INTERNAL_ERROR`) when
it is non-success; the dynamic write handler does not check the
header-fetch response and, treating the header row as empty, still
attempts the append. -/
theorem C8_amended (e : Env) (body : ExpenseData) (tok : TokenResp)
    (sheet : SheetResp) (app : AppendResp) (ah : String)
    (he : envMissing e = false) (hah : jsStartsWith ah "Bearer " = true)
    (hs : sheet.ok = false) :
    (getSheetColumnsHandler e (some ah) true tok sheet).response =
      HandlerResponse.errorResp "An error occurred while processing your request"
        (some "INTERNAL_ERROR") 400 ∧
    appendRanges (dynamicWriteHandler e body tok sheet app).calls =
      [dynamicAppendRange (firstRowOrEmpty sheet.values).length] := by
  cases happ : app.ok <;>
    simp [getSheetColumnsHandler, dynamicWriteHandler, he, hah, hs, happ, gscCatch,
      appendRanges]

/-- C8 witness: the amended claim at a concrete failed header fetch. -/
theorem C8_amended_witness :
    appendRanges (dynamicWriteHandler envOk cakeRecord tokOk sheetFail appOk).calls =
      [dynamicAppendRange (firstRowOrEmpty sheetFail.values).length] :=
  (C8_amended envOk cakeRecord tokOk sheetFail appOk "Bearer t"
    (by decide) (by decide) (by decide)).2

/-- C9: the spec's scenario — seven headers, the Cake record with bill
absent — maps to exactly the row
`["Cake", "2024-03-20", 500, "Food", "Paid", "Alex", ""]`. -/
theorem C9_cake_scenario :
    mapRow ["Expense", "Date", "Amount", "Category", "Status", "Paid By", "Bill"]
        cakeRecord =
      [JSValue.str "Cake", JSValue.str "2024-03-20", JSValue.num 500,
       JSValue.str "Food", JSValue.str "Paid", JSValue.str "Alex",
       JSValue.str ""] := by
  decide

/-- C10: a supplied but falsy optional value is replaced by the empty
string: `localAmount = 0` maps the `"Local Amount"` column to `""`, and
`bill = ""` maps the `"Bill"` column to `""`, because the defaults use
truthiness (`|| ""`) rather than an absence check. -/
theorem C10_falsy_optionals :
    mapHeader
        ⟨.undef, .undef, .undef, .undef, .undef, .undef, .undef, .undef, .undef, .num 0⟩
        "Local Amount" = JSValue.str "" ∧
    mapHeader
        ⟨.undef, .undef, .undef, .undef, .undef, .undef, .str "", .undef, .undef, .undef⟩
        "Bill" = JSValue.str "" := by
  decide
